import Mathlib

/-!
Verification of the embedded-time clock/delay abstraction.

The embedding is shallow: the tick representation type `Clock::T` (u32 or u64
in the Rust source) is modelled as `Nat`, with the u32 range bound made
explicit (`reprLimit`) exactly where the source performs checked arithmetic.
Definitions translated from `src/clock.rs` and `src/delay.rs` cite the source
lines; parts of the crate referenced but not present under `src/`
(fraction.rs, fixed_point.rs, instant.rs, timer.rs) are modelled from the
specification and say so in their doc comments.
-/

namespace EmbeddedTime

/-- Modelled from the spec: §3 ScalingFactor, an exact numerator/denominator
pair representing seconds-per-tick (`fraction.rs` is not under `src/`).
Both components are `u32` values, always positive; positivity is carried as a
hypothesis of the theorems that need it. -/
structure Fraction where
  numerator : Nat
  denominator : Nat
  deriving DecidableEq, Repr

/-- `Fraction::new(num, den)`. -/
def Fraction.new (num den : Nat) : Fraction :=
  ⟨num, den⟩

/-- Modelled from the spec: §4.1/§7 conversion errors of the fixed-point
engine (`fixed_point.rs` is not under `src/`). -/
inductive ConversionError where
  | Overflow
  | ExactRequired
  deriving DecidableEq, Repr

/-- The exclusive upper bound of the `u32` tick representation. -/
def reprLimit : Nat := 2 ^ 32

/-- Modelled from the spec: §4.1 `convert_ticks` with the floor policy —
`value * source.numerator * target.denominator /
(source.denominator * target.numerator)`, promoted to a wide intermediate
before multiplying (hence plain `Nat` arithmetic here). -/
def convertTicks (target source : Fraction) (value : Nat) : Nat :=
  value * source.numerator * target.denominator /
    (source.denominator * target.numerator)

/-- Modelled from the spec: §4.1/§4.4 `convert_ticks` returning
`ConversionError::Overflow` when the final value exceeds the `u32`
representation's range. -/
def convertTicksChecked (target source : Fraction) (value : Nat) :
    Except ConversionError Nat :=
  if convertTicks target source value < reprLimit then
    .ok (convertTicks target source value)
  else
    .error .Overflow

/-- `clock.rs` lines 13-20: the `Clock` error enumeration
(`Unspecified`, `NotRunning`), payload-free, `#[non_exhaustive]`. -/
inductive ClockError where
  | Unspecified
  | NotRunning
  deriving DecidableEq, Repr

/-- `clock.rs` lines 22-26: `impl Default for Error`. -/
def ClockError.default : ClockError :=
  ClockError.Unspecified

/-- `clock.rs` lines 38-51: the `Clock` trait. `T` is embedded as `Nat`;
`SCALING_FACTOR` is the `scaling` field; `try_now` is embedded as a function
of an ambient sampling index (`Nat`), so that successive polls of the same
clock can observe different tick counts. -/
structure Clock where
  scaling : Fraction
  tick : Nat → Except ClockError Nat

/-- `clock.rs` line 51: `try_now`, sampled at ambient index `env`. -/
def Clock.tryNow (c : Clock) (env : Nat) : Except ClockError Nat :=
  c.tick env

/-- Modelled from the spec: §4.2 `Instant::checked_add` returns an absent
result when the sum leaves the `u32` tick range, rather than wrapping
(`instant.rs` is not under `src/`). Instants are bare tick counts here. -/
def Instant.checkedAdd (i d : Nat) : Option Nat :=
  if i + d < reprLimit then some (i + d) else none

/-- Modelled from the spec: §4.3 a timer that has been constructed but not
yet started — `new(clock, duration)` is pure construction with no clock
access, so no expiration is stored (`timer.rs` is not under `src/`). The
duration is a fixed-point value: a tick count plus its scaling factor. -/
structure Timer where
  durValue : Nat
  durFactor : Fraction
  deriving DecidableEq, Repr

/-- Modelled from the spec: §4.3 `Timer::new` — pure construction,
no clock access. -/
def Timer.new (v : Nat) (f : Fraction) : Timer :=
  ⟨v, f⟩

/-- `clock.rs` lines 54-62: `new_timer` delegates to
`Timer::<param::None, param::None, _, _>::new(&self, duration)`. -/
def Clock.newTimer (_c : Clock) (v : Nat) (f : Fraction) : Timer :=
  Timer.new v f

/-- Modelled from the spec: §4.3 a started timer, holding the captured
expiration instant (a clock tick count). -/
structure RunningTimer where
  expiration : Nat
  deriving DecidableEq, Repr

/-- Modelled from the spec: §4.3 `start` — samples `try_now`, converts the
duration to clock ticks, stores `expiration = now + duration`, propagating a
clock error verbatim and overflow as an error rather than panicking (the
overflow case is mapped to `Unspecified` here; no claim exercises it). -/
def Timer.start (t : Timer) (c : Clock) (env : Nat) :
    Except ClockError RunningTimer :=
  match c.tryNow env with
  | .error e => .error e
  | .ok now =>
    match Instant.checkedAdd now (convertTicks c.scaling t.durFactor t.durValue) with
    | some exp => .ok ⟨exp⟩
    | none => .error .Unspecified

/-- Modelled from the spec: §4.3 `is_expired` — samples `try_now`, compares
against the stored expiration, mutates nothing. -/
def RunningTimer.isExpired (t : RunningTimer) (c : Clock) (env : Nat) :
    Except ClockError Bool :=
  match c.tryNow env with
  | .error e => .error e
  | .ok now => .ok (decide (t.expiration ≤ now))

/-- Modelled from the spec: §4.3 `wait` — repeated polling of `is_expired`
until it reports true, propagating clock errors verbatim. The poll budget
(`fuel`) makes the spin loop total; `ok none` means the budget ran out while
the timer was still running, `ok (some env)` reports the sampling index at
which expiry was observed. -/
def RunningTimer.wait (t : RunningTimer) (c : Clock) :
    Nat → Nat → Except ClockError (Option Nat)
  | _, 0 => .ok none
  | env, fuel + 1 =>
    match t.isExpired c env with
    | .error e => .error e
    | .ok true => .ok (some env)
    | .ok false => t.wait c (env + 1) fuel

/-- The duration, in clock ticks, that `delay_ms` arms its timer with:
`delay.rs` lines 20-33 — `convert_ticks(ms, 1/1000)` plus a correction of 1
tick when `ms * SCALING_FACTOR.denominator % SCALING_FACTOR.numerator % 1000`
is zero and 2 ticks otherwise. -/
def delayMsDurationTicks (sf : Fraction) (ms : Nat) : Nat :=
  convertTicks sf (Fraction.new 1 1000) ms +
    (if ms * sf.denominator % sf.numerator % 1000 = 0 then 1 else 2)

/-- The duration, in clock ticks, that `delay_us` arms its timer with:
`delay.rs` lines 45-58 — as `delay_ms` with 1 000 000 in place of 1 000. -/
def delayUsDurationTicks (sf : Fraction) (us : Nat) : Nat :=
  convertTicks sf (Fraction.new 1 1000000) us +
    (if us * sf.denominator % sf.numerator % 1000000 = 0 then 1 else 2)

/-- The two ways `delay_ms`/`delay_us` can panic: `.unwrap()` of a failed
tick conversion (`delay.rs` lines 22/47) or of a clock error from
`start`/`is_expired` (`delay.rs` lines 34-35/59-60). -/
inductive PanicKind where
  | clock (e : ClockError)
  | conversion (e : ConversionError)
  deriving DecidableEq, Repr

/-- `delay.rs` lines 19-34: the arming portion of `delay_ms` — convert the
requested milliseconds into clock ticks (unwrap), add the correction term,
wrap in a `ClockDuration` (whose scaling factor is the clock's own), spawn
via `new_timer` and `start` (unwrap). An `error` value models a panic. -/
def delayMsTimer (c : Clock) (ms env : Nat) : Except PanicKind RunningTimer :=
  match convertTicksChecked c.scaling (Fraction.new 1 1000) ms with
  | .error e => .error (.conversion e)
  | .ok tick =>
    let correction : Nat :=
      if ms * c.scaling.denominator % c.scaling.numerator % 1000 = 0 then 1 else 2
    match (c.newTimer (tick + correction) c.scaling).start c env with
    | .error e => .error (.clock e)
    | .ok t => .ok t

/-- `delay.rs` lines 44-59: the arming portion of `delay_us`. -/
def delayUsTimer (c : Clock) (us env : Nat) : Except PanicKind RunningTimer :=
  match convertTicksChecked c.scaling (Fraction.new 1 1000000) us with
  | .error e => .error (.conversion e)
  | .ok tick =>
    let correction : Nat :=
      if us * c.scaling.denominator % c.scaling.numerator % 1000000 = 0 then 1 else 2
    match (c.newTimer (tick + correction) c.scaling).start c env with
    | .error e => .error (.clock e)
    | .ok t => .ok t

/-- Outcome of a full `delay_ms` call, whose Rust return type is `()`:
either it completes, or an `.unwrap()` panics, or the poll budget of this
model runs out while spinning. -/
inductive DelayOutcome where
  | completed (spins : Nat)
  | panicked (p : PanicKind)
  | outOfFuel
  deriving DecidableEq, Repr

/-- `delay.rs` lines 35-37: `while !timer.is_expired().unwrap() { wait(); }`,
with the caller-supplied wait callback modelled as the ambient sampling index
advancing by one per iteration. -/
def delaySpin (c : Clock) (t : RunningTimer) : Nat → Nat → DelayOutcome
  | _, 0 => DelayOutcome.outOfFuel
  | env, fuel + 1 =>
    match t.isExpired c env with
    | .error e => DelayOutcome.panicked (.clock e)
    | .ok true => DelayOutcome.completed env
    | .ok false => delaySpin c t (env + 1) fuel

/-- `delay.rs` lines 19-38: the whole of `delay_ms`, panics modelled as
`DelayOutcome.panicked`. -/
def delayMsRun (c : Clock) (ms env fuel : Nat) : DelayOutcome :=
  match delayMsTimer c ms env with
  | .error p => DelayOutcome.panicked p
  | .ok t => delaySpin c t env fuel

/-- `clock.rs` lines 65-92: `ClockDuration`, a duration unit type tied to a
specific clock — a newtype over the clock's tick representation. -/
structure ClockDuration where
  value : Nat
  deriving DecidableEq, Repr

/-- `clock.rs` lines 84-86: `FixedPoint::new` for `ClockDuration`. -/
def ClockDuration.new (v : Nat) : ClockDuration :=
  ⟨v⟩

/-- `clock.rs` lines 89-91: `FixedPoint::integer` for `ClockDuration`. -/
def ClockDuration.integer (d : ClockDuration) : Nat :=
  d.value

/-- `clock.rs` line 81: `ClockDuration`'s `SCALING_FACTOR` is
`Clock::SCALING_FACTOR`. -/
def ClockDuration.scalingFactor (c : Clock) : Fraction :=
  c.scaling

/-- `clock.rs` lines 94-99: `Display` for `ClockDuration` delegates to the
`Display` of the raw tick value `self.0`. -/
def ClockDuration.display (d : ClockDuration) : String :=
  toString d.value

/-- A 1 kHz test clock (scaling factor 1/1000) whose `try_now` reports the
ambient sampling index itself as the tick count. -/
def clkIdentity1k : Clock :=
  ⟨Fraction.new 1 1000, fun env => .ok env⟩

/-- A test clock whose `try_now` always fails with `NotRunning`. -/
def clkNotRunning : Clock :=
  ⟨Fraction.new 1 1000, fun _ => .error .NotRunning⟩

/-- Converting a tick count between identical scaling factors is the
identity. -/
theorem convertTicks_self (f : Fraction) (v : Nat)
    (hn : 0 < f.numerator) (hd : 0 < f.denominator) :
    convertTicks f f v = v := by
  unfold convertTicks
  have h : v * f.numerator * f.denominator = f.denominator * f.numerator * v := by
    ring
  rw [h, Nat.mul_div_cancel_left _ (Nat.mul_pos hd hn)]

/-- `start` on a healthy clock captures `expiration = now + duration`
converted to clock ticks. -/
theorem start_ok_of_tryNow (c : Clock) (t : Timer) (env now : Nat)
    (htick : c.tryNow env = .ok now)
    (hrange : now + convertTicks c.scaling t.durFactor t.durValue < reprLimit) :
    t.start c env = .ok ⟨now + convertTicks c.scaling t.durFactor t.durValue⟩ := by
  simp [Timer.start, htick, Instant.checkedAdd, hrange]

/-- Claim C10: `Error::default()` always returns `Error::Unspecified`
(`clock.rs` lines 22-26). -/
theorem clock_error_default_unspecified :
    ClockError.default = ClockError.Unspecified := rfl

/-- Claim C8: the clock error type has exactly the payload-free variants
`Unspecified` and `NotRunning`, and `try_now` yields, on failure, exactly a
value of this type — one of those two variants. (`#[non_exhaustive]` is a
compile-time attribute, present at `clock.rs` line 13, with no value-level
content to state.) -/
theorem clock_error_variants :
    (∀ e : ClockError, e = ClockError.Unspecified ∨ e = ClockError.NotRunning) ∧
    (∀ (c : Clock) (env : Nat),
      (∃ n, c.tryNow env = .ok n) ∨
      (∃ e, c.tryNow env = .error e ∧
        (e = ClockError.Unspecified ∨ e = ClockError.NotRunning))) := by
  constructor
  · intro e
    cases e
    · exact Or.inl rfl
    · exact Or.inr rfl
  · intro c env
    match h : c.tryNow env with
    | .ok n => exact Or.inl ⟨n, rfl⟩
    | .error e =>
      refine Or.inr ⟨e, rfl, ?_⟩
      cases e
      · exact Or.inl rfl
      · exact Or.inr rfl

/-- Claim C9: `ClockDuration::new(v)` read back with `integer()` is exactly
`v`, `ClockDuration`'s scaling factor is the clock's, and its `Display`
output is the `Display` output of the raw tick value (`clock.rs` 79-99). -/
theorem clock_duration_fixed_point_impl :
    ∀ (c : Clock) (v : Nat),
      (ClockDuration.new v).integer = v ∧
      ClockDuration.scalingFactor c = c.scaling ∧
      (ClockDuration.new v).display = toString v := by
  intro c v
  exact ⟨rfl, rfl, rfl⟩

/-- Claim C6: on a clock of scaling factor 1/1000 reading tick 0,
`new_timer` with a 5 ms duration followed by `start` records expiration
tick 5; `is_expired` reads `false` at clock tick 4 and `true` at tick 5. -/
theorem one_khz_five_ms_scenario :
    (clkIdentity1k.newTimer 5 (Fraction.new 1 1000)).start clkIdentity1k 0 =
      .ok ⟨5⟩ ∧
    RunningTimer.isExpired ⟨5⟩ clkIdentity1k 4 = .ok false ∧
    RunningTimer.isExpired ⟨5⟩ clkIdentity1k 5 = .ok true := by
  refine ⟨?_, ?_, ?_⟩ <;> rfl

/-- Claim C5: for all tick values `v` and scaling factors `A`, `B` such that
the conversion `A → B → A` is exact (`B`'s factor evenly divides `A`'s),
converting and converting back returns exactly `v`. -/
theorem convert_ticks_roundtrip_exact (A B : Fraction) (v : Nat)
    (hAn : 0 < A.numerator) (hAd : 0 < A.denominator)
    (hBn : 0 < B.numerator) (hBd : 0 < B.denominator)
    (hdvd : A.denominator * B.numerator ∣ A.numerator * B.denominator) :
    convertTicks A B (convertTicks B A v) = v := by
  obtain ⟨k, hk⟩ := hdvd
  have h1 : convertTicks B A v = v * k := by
    unfold convertTicks
    have h : v * A.numerator * B.denominator =
        A.denominator * B.numerator * (v * k) := by
      calc v * A.numerator * B.denominator
          = v * (A.numerator * B.denominator) := by ring
        _ = v * (A.denominator * B.numerator * k) := by rw [hk]
        _ = A.denominator * B.numerator * (v * k) := by ring
    rw [h, Nat.mul_div_cancel_left _ (Nat.mul_pos hAd hBn)]
  rw [h1]
  unfold convertTicks
  have h2 : v * k * B.numerator * A.denominator =
      B.denominator * A.numerator * v := by
    calc v * k * B.numerator * A.denominator
        = v * (A.denominator * B.numerator * k) := by ring
      _ = v * (A.numerator * B.denominator) := by rw [hk]
      _ = B.denominator * A.numerator * v := by ring
  rw [h2, Nat.mul_div_cancel_left _ (Nat.mul_pos hBd hAn)]

/-- Witness for C5: 3 seconds converted to milliseconds and back is
3 seconds. -/
theorem convert_ticks_roundtrip_exact_witness :
    (Fraction.new 1 1).denominator * (Fraction.new 1 1000).numerator ∣
      (Fraction.new 1 1).numerator * (Fraction.new 1 1000).denominator ∧
    convertTicks (Fraction.new 1 1) (Fraction.new 1 1000)
      (convertTicks (Fraction.new 1 1000) (Fraction.new 1 1) 3) = 3 :=
  ⟨by decide,
   convert_ticks_roundtrip_exact (Fraction.new 1 1) (Fraction.new 1 1000) 3
     (by decide) (by decide) (by decide) (by decide) (by decide)⟩

/-- Claim C7: when `i + d` leaves the tick representation's range,
`checked_add` returns an absent result rather than wrapping, and a
conversion whose result leaves the range fails with the declared
`Overflow` error kind rather than wrapping to a smaller value. -/
theorem checked_add_and_convert_overflow (i d v : Nat)
    (target source : Fraction)
    (h1 : reprLimit ≤ i + d)
    (h2 : reprLimit ≤ convertTicks target source v) :
    Instant.checkedAdd i d = none ∧
    convertTicksChecked target source v = .error ConversionError.Overflow := by
  constructor
  · unfold Instant.checkedAdd
    rw [if_neg (Nat.not_lt.mpr h1)]
  · unfold convertTicksChecked
    rw [if_neg (Nat.not_lt.mpr h2)]

/-- Witness for C7: adding 1 to the maximum `u32` instant fails, and
converting 2^32 seconds to milliseconds overflows. -/
theorem checked_add_and_convert_overflow_witness :
    reprLimit ≤ 4294967295 + 1 ∧
    reprLimit ≤ convertTicks (Fraction.new 1 1000) (Fraction.new 1 1) 4294967296 ∧
    Instant.checkedAdd 4294967295 1 = none ∧
    convertTicksChecked (Fraction.new 1 1000) (Fraction.new 1 1) 4294967296 =
      .error ConversionError.Overflow := by
  have h := checked_add_and_convert_overflow 4294967295 1 4294967296
    (Fraction.new 1 1000) (Fraction.new 1 1) (by decide) (by decide)
  exact ⟨by decide, by decide, h.1, h.2⟩

/-- Claim C1: `delay_ms` arms its timer with `convert_ticks(N, 1/1000)` plus
a correction term, and the correction equals 1 tick when
`(N * SCALING_FACTOR.denominator) % SCALING_FACTOR.numerator % 1000` is zero
and 2 ticks otherwise; analogously `delay_us` with 1 000 000 in place of
1 000. -/
theorem delay_arms_convert_plus_correction
    (c : Clock) (ms us env now : Nat)
    (hn : 0 < c.scaling.numerator) (hd : 0 < c.scaling.denominator)
    (htick : c.tryNow env = .ok now)
    (hms1 : convertTicks c.scaling (Fraction.new 1 1000) ms < reprLimit)
    (hms2 : now + delayMsDurationTicks c.scaling ms < reprLimit)
    (hus1 : convertTicks c.scaling (Fraction.new 1 1000000) us < reprLimit)
    (hus2 : now + delayUsDurationTicks c.scaling us < reprLimit) :
    delayMsTimer c ms env = .ok ⟨now + delayMsDurationTicks c.scaling ms⟩ ∧
    delayMsDurationTicks c.scaling ms =
      convertTicks c.scaling (Fraction.new 1 1000) ms +
        (if ms * c.scaling.denominator % c.scaling.numerator % 1000 = 0
          then 1 else 2) ∧
    delayUsTimer c us env = .ok ⟨now + delayUsDurationTicks c.scaling us⟩ ∧
    delayUsDurationTicks c.scaling us =
      convertTicks c.scaling (Fraction.new 1 1000000) us +
        (if us * c.scaling.denominator % c.scaling.numerator % 1000000 = 0
          then 1 else 2) := by
  refine ⟨?_, rfl, ?_, rfl⟩
  · have hr : now + convertTicks c.scaling
        (Clock.newTimer c (delayMsDurationTicks c.scaling ms) c.scaling).durFactor
        (Clock.newTimer c (delayMsDurationTicks c.scaling ms) c.scaling).durValue <
        reprLimit := by
      simpa [Clock.newTimer, Timer.new,
        convertTicks_self c.scaling _ hn hd] using hms2
    unfold delayMsTimer convertTicksChecked
    rw [if_pos hms1]
    show (match (Clock.newTimer c (delayMsDurationTicks c.scaling ms)
        c.scaling).start c env with
      | Except.error e => Except.error (PanicKind.clock e)
      | Except.ok t => Except.ok t) =
      Except.ok ⟨now + delayMsDurationTicks c.scaling ms⟩
    rw [start_ok_of_tryNow c
      (Clock.newTimer c (delayMsDurationTicks c.scaling ms) c.scaling)
      env now htick hr]
    simp [Clock.newTimer, Timer.new, convertTicks_self c.scaling _ hn hd]
  · have hr : now + convertTicks c.scaling
        (Clock.newTimer c (delayUsDurationTicks c.scaling us) c.scaling).durFactor
        (Clock.newTimer c (delayUsDurationTicks c.scaling us) c.scaling).durValue <
        reprLimit := by
      simpa [Clock.newTimer, Timer.new,
        convertTicks_self c.scaling _ hn hd] using hus2
    unfold delayUsTimer convertTicksChecked
    rw [if_pos hus1]
    show (match (Clock.newTimer c (delayUsDurationTicks c.scaling us)
        c.scaling).start c env with
      | Except.error e => Except.error (PanicKind.clock e)
      | Except.ok t => Except.ok t) =
      Except.ok ⟨now + delayUsDurationTicks c.scaling us⟩
    rw [start_ok_of_tryNow c
      (Clock.newTimer c (delayUsDurationTicks c.scaling us) c.scaling)
      env now htick hr]
    simp [Clock.newTimer, Timer.new, convertTicks_self c.scaling _ hn hd]

/-- Witness for C1: a 1 kHz clock reading tick 0, asked for 7 ms and 7 µs. -/
theorem delay_arms_convert_plus_correction_witness :
    delayMsTimer clkIdentity1k 7 0 = .ok ⟨8⟩ ∧
    delayUsTimer clkIdentity1k 7 0 = .ok ⟨1⟩ :=
  have h := delay_arms_convert_plus_correction clkIdentity1k 7 7 0 0
    (by decide) (by decide) rfl (by decide) (by decide) (by decide) (by decide)
  ⟨h.1.trans (by rfl), h.2.2.1.trans (by rfl)⟩

/-- Claim C2 counterexample: a clock failure during `delay_ms` is not
surfaced as a result value — the `.unwrap()` at `delay.rs` line 34 panics
with the clock's error. -/
theorem delay_ms_panics_on_clock_error :
    delayMsRun clkNotRunning 5 0 3 =
      DelayOutcome.panicked (PanicKind.clock ClockError.NotRunning) := by
  rfl

/-- Claim C2 (amended): `start`, `is_expired` and `wait` surface a failing
`try_now` to the caller verbatim as a result value; `delay_ms`/`delay_us`,
whose interface returns unit, instead unwrap those results and panic on
failure. -/
theorem timer_ops_surface_clock_errors
    (c : Clock) (t : Timer) (rt : RunningTimer) (env fuel : Nat)
    (e : ClockError) (h : c.tryNow env = .error e) :
    t.start c env = .error e ∧
    rt.isExpired c env = .error e ∧
    rt.wait c env (fuel + 1) = .error e := by
  refine ⟨?_, ?_, ?_⟩
  · simp [Timer.start, h]
  · simp [RunningTimer.isExpired, h]
  · simp [RunningTimer.wait, RunningTimer.isExpired, h]

/-- Witness for C2 (amended): a stopped clock makes `start`, `is_expired`
and `wait` all return `NotRunning`. -/
theorem timer_ops_surface_clock_errors_witness :
    clkNotRunning.tryNow 0 = .error ClockError.NotRunning ∧
    (Timer.new 5 (Fraction.new 1 1000)).start clkNotRunning 0 =
      .error ClockError.NotRunning ∧
    RunningTimer.isExpired ⟨5⟩ clkNotRunning 0 = .error ClockError.NotRunning ∧
    RunningTimer.wait ⟨5⟩ clkNotRunning 0 1 = .error ClockError.NotRunning :=
  have h := timer_ops_surface_clock_errors clkNotRunning
    (Timer.new 5 (Fraction.new 1 1000)) ⟨5⟩ 0 0 ClockError.NotRunning rfl
  ⟨rfl, h.1, h.2.1, h.2.2⟩

/-- Claim C3 counterexample: `new_timer` does not capture an expiration —
it delegates to the pure `Timer::new`. On the identity 1 kHz clock, a timer
built with duration 5 and started only at clock tick 7 expires at tick 12,
not at `0 + 5` as it would had `new_timer` (issued while the clock read 0)
already captured `now + d`. -/
theorem new_timer_does_not_capture_expiration :
    Clock.newTimer clkIdentity1k 5 (Fraction.new 1 1000) =
      Timer.new 5 (Fraction.new 1 1000) ∧
    (Clock.newTimer clkIdentity1k 5 (Fraction.new 1 1000)).start clkIdentity1k 7 =
      .ok ⟨12⟩ ∧
    (12 : Nat) ≠ 0 + 5 := by
  refine ⟨rfl, by rfl, by decide⟩

/-- Claim C3 (amended): `new_timer(d)` constructs a OneShot timer by
delegating to `Timer::new`, with no clock access and no expiration captured;
a subsequent `start()` call captures `expiration = now + d` (which is why
`delay.rs` line 34 calls `start` on `new_timer`'s result before polling). -/
theorem new_timer_constructs_unstarted
    (c : Clock) (v : Nat) (f : Fraction) (env now : Nat)
    (htick : c.tryNow env = .ok now)
    (hrange : now + convertTicks c.scaling f v < reprLimit) :
    Clock.newTimer c v f = Timer.new v f ∧
    (Clock.newTimer c v f).start c env =
      .ok ⟨now + convertTicks c.scaling f v⟩ :=
  ⟨rfl, start_ok_of_tryNow c (Clock.newTimer c v f) env now htick hrange⟩

/-- Witness for C3 (amended): the 1 kHz identity clock at tick 0 with a
5-tick duration. -/
theorem new_timer_constructs_unstarted_witness :
    clkIdentity1k.tryNow 0 = .ok 0 ∧
    0 + convertTicks clkIdentity1k.scaling (Fraction.new 1 1000) 5 < reprLimit ∧
    Clock.newTimer clkIdentity1k 5 (Fraction.new 1 1000) =
      Timer.new 5 (Fraction.new 1 1000) ∧
    (Clock.newTimer clkIdentity1k 5 (Fraction.new 1 1000)).start clkIdentity1k 0 =
      .ok ⟨0 + convertTicks clkIdentity1k.scaling (Fraction.new 1 1000) 5⟩ :=
  have h := new_timer_constructs_unstarted clkIdentity1k 5 (Fraction.new 1 1000)
    0 0 rfl (by decide)
  ⟨rfl, by decide, h.1, h.2⟩

/-- Floor division plus a correction of at least one tick always covers the
requested amount. -/
theorem le_div_add_correction (a b cc : Nat) (hb : 0 < b) (hcc : 1 ≤ cc) :
    a ≤ (a / b + cc) * b := by
  have h1 := Nat.div_add_mod a b
  have h2 := Nat.mod_lt a hb
  have h3 : 1 * b ≤ cc * b := mul_le_mul_right' hcc b
  calc a = b * (a / b) + a % b := h1.symm
    _ ≤ b * (a / b) + b := Nat.add_le_add_left (le_of_lt h2) _
    _ = a / b * b + 1 * b := by ring
    _ ≤ a / b * b + cc * b := Nat.add_le_add_left h3 _
    _ = (a / b + cc) * b := by ring

/-- Claim C4: `delay_ms(N)` arms a duration that never covers fewer real
ticks than required to span `N` milliseconds, and in the concrete 1 kHz case
(scaling factor 1/1000) a 1 ms delay arms at least 2 clock ticks, not 1. -/
theorem delay_ms_covers_requested
    (num den ms : Nat) (hnum : 0 < num) (_hden : 0 < den)
    (_hndiv : ¬ (1000 * num ∣ den)) :
    ms * den ≤ delayMsDurationTicks (Fraction.new num den) ms * (1000 * num) ∧
    2 ≤ delayMsDurationTicks (Fraction.new 1 1000) 1 ∧
    delayMsDurationTicks (Fraction.new 1 1000) 1 ≠ 1 := by
  refine ⟨?_, by decide, by decide⟩
  have hb : 0 < 1000 * num := by positivity
  have hconv : convertTicks (Fraction.new num den) (Fraction.new 1 1000) ms =
      ms * den / (1000 * num) := by
    unfold convertTicks Fraction.new
    simp
  have hcorr : 1 ≤ (if ms * (Fraction.new num den).denominator %
      (Fraction.new num den).numerator % 1000 = 0 then (1 : Nat) else 2) := by
    split <;> omega
  unfold delayMsDurationTicks
  rw [hconv]
  exact le_div_add_correction (ms * den) (1000 * num) _ hb hcorr

/-- Witness for C4: a 1/300-second-per-tick clock (whose tick period does
not evenly divide 1 ms) asked to delay 7 ms, plus the 1 kHz concrete case. -/
theorem delay_ms_covers_requested_witness :
    ¬ (1000 * 1 ∣ 300) ∧
    7 * 300 ≤ delayMsDurationTicks (Fraction.new 1 300) 7 * (1000 * 1) ∧
    2 ≤ delayMsDurationTicks (Fraction.new 1 1000) 1 :=
  have h := delay_ms_covers_requested 1 300 7 (by decide) (by decide) (by decide)
  ⟨by decide, h.1, h.2.1⟩

end EmbeddedTime
